import Mathlib

/-!
Verification of the Metadata Service of a photography-portfolio repository
(file `src/lib/imageMetadata.ts`): a cached sidecar-metadata loader
(`loadImageMetadata`), an exposure-string formatter (`formatExposureData`)
and two JSON-LD schema builders (`generateImageSchema`,
`generateCollectionSchema`).

The embedding follows the TypeScript source statement by statement.
JavaScript semantics that matter here and are modelled explicitly:

* truthiness guards: `if (x)` is false for `undefined`, the empty string
  and the number `0`, and true for every array (even the empty one);
* `a || b` yields `b` when `a` is falsy;
* `x && obj` spread into an object literal contributes nothing when `x`
  is falsy;
* `[a, b].filter(Boolean)` drops `undefined` and empty strings;
* indexing an empty array gives `undefined`, which a template literal
  renders as the text `undefined`.

Optional TypeScript fields become `Option`; `number | number[]` becomes
the inductive `IsoValue`; the JS string primitives used by the source
(`startsWith`, `endsWith`, `replace(/:/g,"-")`, `split(" ")[0]`,
`join(" ")`) are re-implemented on `List Char` so that every definition
is executable and kernel-reducible.
-/

/-- The `iso` field of the TS interface has type `number | number[]`. -/
inductive IsoValue where
  | single (n : Int)
  | seq (ns : List Int)
deriving DecidableEq, Repr

/-- The `ImageMetadata` interface: a sparse record, every field optional. -/
structure ImageMetadata where
  camera_make : Option String
  camera_model : Option String
  lens : Option String
  iso : Option IsoValue
  aperture : Option String
  shutter_speed : Option String
  focal_length_35mm : Option String
  date_taken : Option String
deriving DecidableEq, Repr

/-- A metadata record with every field absent. -/
def emptyMetadata : ImageMetadata :=
  ⟨none, none, none, none, none, none, none, none⟩

/-- JS truthiness of an optional string: `undefined` and `""` are falsy. -/
def truthyStr : Option String → Bool
  | none => false
  | some s => s != ""

/-- JS truthiness of an `iso` value: the number `0` is falsy, every array
(including `[]`) is truthy. -/
def truthyIsoVal : IsoValue → Bool
  | .single n => n != 0
  | .seq _ => true

/-- Rendering of `Array.isArray(iso) ? iso[0] : iso` inside a template
literal: indexing an empty array gives `undefined`, rendered as the text
`undefined`. -/
def isoDisplay : IsoValue → String
  | .single n => toString n
  | .seq [] => "undefined"
  | .seq (n :: _) => toString n

/-- JS `String.prototype.startsWith`. -/
def strStartsWith (s p : String) : Bool :=
  p.data.isPrefixOf s.data

/-- JS `String.prototype.endsWith`. -/
def strEndsWith (s p : String) : Bool :=
  p.data.reverse.isPrefixOf s.data.reverse

/-- JS `Array.prototype.join(" ")`. -/
def joinSpace : List String → String
  | [] => ""
  | [s] => s
  | s :: rest => s ++ " " ++ joinSpace rest

/-- JS `[a, b, ...].filter(Boolean).join(" ")`: drop `undefined` and empty
strings, then join with single spaces. -/
def filterBooleanJoin (l : List (Option String)) : String :=
  joinSpace ((l.filterMap id).filter (fun s => s != ""))

/-- JS `s.replace(/:/g, "-")`: every colon becomes a dash. -/
def replaceColons (s : String) : String :=
  ⟨s.data.map (fun c => if c == ':' then '-' else c)⟩

/-- JS `s.split(" ")[0]`: the portion of `s` before its first space. -/
def beforeFirstSpace (s : String) : String :=
  ⟨s.data.takeWhile (fun c => c != ' ')⟩

/-- The output `Record<string, string>` of `formatExposureData`: the source
only ever writes these seven keys, each at most once; an `Option` field set
to `none` models the key being absent. -/
structure ExposureParts where
  camera : Option String
  lens : Option String
  iso : Option String
  aperture : Option String
  shutter : Option String
  focal_length : Option String
  date : Option String
deriving DecidableEq, Repr

/-- The empty record `{}` that `formatExposureData` starts from. -/
def emptyParts : ExposureParts :=
  ⟨none, none, none, none, none, none, none⟩

/-- Execution state of the body of `formatExposureData`: the (read-only)
input record and the `parts` record being built. Threading the metadata
through every statement lets us prove it is never written. -/
structure FmtState where
  metadata : ImageMetadata
  parts : ExposureParts
deriving DecidableEq, Repr

/-- `if (metadata.camera_make || metadata.camera_model) parts.camera = [make, model].filter(Boolean).join(" ")` -/
def stmtCamera (s : FmtState) : FmtState :=
  if truthyStr s.metadata.camera_make || truthyStr s.metadata.camera_model then
    { s with parts := { s.parts with
        camera := some (filterBooleanJoin [s.metadata.camera_make, s.metadata.camera_model]) } }
  else s

/-- `if (metadata.lens) parts.lens = metadata.lens` -/
def stmtLens (s : FmtState) : FmtState :=
  match s.metadata.lens with
  | some v => if v != "" then
      { s with parts := { s.parts with lens := some v } }
    else s
  | none => s

/-- `if (metadata.iso) parts.iso = ISO (Array.isArray(iso) ? iso[0] : iso)` -/
def stmtIso (s : FmtState) : FmtState :=
  match s.metadata.iso with
  | some v => if truthyIsoVal v then
      { s with parts := { s.parts with iso := some ("ISO " ++ isoDisplay v) } }
    else s
  | none => s

/-- `if (metadata.aperture) parts.aperture = aperture.startsWith("f/") ? aperture : "f/" + aperture` -/
def stmtAperture (s : FmtState) : FmtState :=
  match s.metadata.aperture with
  | some v => if v != "" then
      { s with parts := { s.parts with
          aperture := some (if strStartsWith v "f/" then v else "f/" ++ v) } }
    else s
  | none => s

/-- `if (metadata.shutter_speed) parts.shutter = shutter.startsWith("1/") ? shutter : "1/" + shutter` -/
def stmtShutter (s : FmtState) : FmtState :=
  match s.metadata.shutter_speed with
  | some v => if v != "" then
      { s with parts := { s.parts with
          shutter := some (if strStartsWith v "1/" then v else "1/" ++ v) } }
    else s
  | none => s

/-- `if (metadata.focal_length_35mm) parts.focal_length = f.endsWith("mm") ? f : f + "mm"` -/
def stmtFocal (s : FmtState) : FmtState :=
  match s.metadata.focal_length_35mm with
  | some v => if v != "" then
      { s with parts := { s.parts with
          focal_length := some (if strEndsWith v "mm" then v else v ++ "mm") } }
    else s
  | none => s

/-- `if (metadata.date_taken) parts.date = date.replace(/:/g, "-").split(" ")[0]` -/
def stmtDate (s : FmtState) : FmtState :=
  match s.metadata.date_taken with
  | some v => if v != "" then
      { s with parts := { s.parts with
          date := some (beforeFirstSpace (replaceColons v)) } }
    else s
  | none => s

/-- The full statement sequence of `formatExposureData`, starting from the
input record and an empty `parts`. -/
def formatRun (m : ImageMetadata) : FmtState :=
  stmtDate (stmtFocal (stmtShutter (stmtAperture (stmtIso (stmtLens (stmtCamera ⟨m, emptyParts⟩))))))

/-- `formatExposureData`: run the statements, return the `parts` record. -/
def formatExposureData (m : ImageMetadata) : ExposureParts :=
  (formatRun m).parts

/-! The cached loader `loadImageMetadata`. The process-wide
`metadataCache` (a `Map<string, ImageMetadata>`) is passed and returned
explicitly; the outcome of the single network request a call may issue is a
parameter; the promise-rejection channel of the `async` function is the
`Except` layer, so that the `try`/`catch` of the source is visible and the
absence of escaping faults is a theorem rather than a typing accident. -/

/-- The process-wide `metadataCache`, as an association list: `set` conses
in front, `get`/`has` find the most recent binding. -/
abbrev Cache := List (String × ImageMetadata)

/-- Possible outcomes of `fetch` + `response.json()` for one request. -/
inductive FetchOutcome where
  /-- `fetch` itself rejects (network fault). -/
  | fault
  /-- A response arrives with `response.ok` false (e.g. 404). -/
  | notOk
  /-- `response.ok` holds but `response.json()` rejects (malformed body). -/
  | okBadJson
  /-- `response.ok` holds and the body parses as an `ImageMetadata`. -/
  | okJson (m : ImageMetadata)
deriving DecidableEq, Repr

/-- A fault that a statement inside the `try` block can raise. -/
inductive JsFault where
  | fetchFailed
  | parseFailed
deriving DecidableEq, Repr

/-- What one call to `loadImageMetadata` produces: the returned value, the
cache after the call, and the list of URLs it requested over the network. -/
structure LoadResult where
  result : Option ImageMetadata
  cache : Cache
  requests : List String
deriving DecidableEq, Repr

/-- The template literal `` `${baseUrl}/${imageStem}-metadata.json` ``. -/
def requestUrl (baseUrl imageStem : String) : String :=
  baseUrl ++ "/" ++ imageStem ++ "-metadata.json"

/-- The `try` block of `loadImageMetadata`: issue the fetch; on a non-ok
response warn and return `null` without touching the cache; otherwise parse
the body, store it in the cache and return it. A rejecting `fetch` or
`response.json()` raises. -/
def tryFetchBlock (cache : Cache) (imageStem : String) (net : FetchOutcome) :
    Except JsFault (Option ImageMetadata × Cache) :=
  match net with
  | .fault => .error .fetchFailed
  | .notOk => .ok (none, cache)
  | .okBadJson => .error .parseFailed
  | .okJson m => .ok (some m, (imageStem, m) :: cache)

/-- `loadImageMetadata(imageStem, baseUrl)` run against a given cache and
network outcome. The source defaults `baseUrl` to `"/metadata"`. First the
cache is consulted (`has` then `get || null`; a hit issues no request);
on a miss the `try` block runs and its faults are caught, logged and
converted to `null`, leaving the cache as it was. -/
def loadImageMetadata (cache : Cache) (imageStem baseUrl : String)
    (net : FetchOutcome) : Except JsFault LoadResult :=
  match cache.lookup imageStem with
  | some m => .ok { result := some m, cache := cache, requests := [] }
  | none =>
    match tryFetchBlock cache imageStem net with
    | .ok (r, c) => .ok { result := r, cache := c, requests := [requestUrl baseUrl imageStem] }
    | .error _ => .ok { result := none, cache := cache, requests := [requestUrl baseUrl imageStem] }

/-! JSON-LD schema builders. The fixed-vocabulary objects become
structures; the `"@context"` and `"@type"` keys become the fields
`atContext` and `atType`. -/

/-- The `photographer` object: `{"@type": "Person", name}`. -/
structure PersonSchema where
  atType : String
  name : String
deriving DecidableEq, Repr

/-- The `creator` object: `{"@type": "Person", name, url}`. -/
structure CreatorSchema where
  atType : String
  name : String
  url : String
deriving DecidableEq, Repr

/-- The `isPartOf` object: `{"@type": "WebSite", name, url}`. -/
structure WebSiteSchema where
  atType : String
  name : String
  url : String
deriving DecidableEq, Repr

/-- The `instrument` object: `{"@type": "Camera", name}`. -/
structure CameraSchema where
  atType : String
  name : String
deriving DecidableEq, Repr

/-- The `workExample` object: `{"@type": "PhotographAction", instrument}`. -/
structure WorkExampleSchema where
  atType : String
  instrument : CameraSchema
deriving DecidableEq, Repr

/-- Result of `generateImageSchema`. `photographDate` is `undefined` when
`date_taken` is absent; `workExample` is absent when the conditional spread
`...(metadata.camera_model && {...})` contributes nothing. -/
structure ImageSchema where
  atContext : String
  atType : String
  name : String
  description : String
  image : String
  photographDate : Option String
  photographer : PersonSchema
  workExample : Option WorkExampleSchema
deriving DecidableEq, Repr

/-- JS `description || title`: `undefined` and `""` fall back to the title. -/
def jsOrElse (description : Option String) (title : String) : String :=
  match description with
  | some d => if d != "" then d else title
  | none => title

/-- `generateImageSchema(imageSrc, title, metadata, description?)`. The
spread `...(metadata.camera_model && {workExample: ...})` adds the
`workExample` key exactly when `camera_model` is truthy (present and
non-empty). -/
def generateImageSchema (imageSrc title : String) (metadata : ImageMetadata)
    (description : Option String) : ImageSchema :=
  { atContext := "https://schema.org/"
    atType := "Photograph"
    name := title
    description := jsOrElse description title
    image := imageSrc
    photographDate := metadata.date_taken
    photographer := { atType := "Person", name := "Adrian Villanueva" }
    workExample :=
      match metadata.camera_model with
      | some model =>
        if model != "" then
          some { atType := "PhotographAction"
                 instrument := { atType := "Camera"
                                 name := filterBooleanJoin [metadata.camera_make, metadata.camera_model] } }
        else none
      | none => none }

/-- One entry of `associatedMedia`: `{"@type": "ImageObject", url, name}`. -/
structure ImageObjectSchema where
  atType : String
  url : String
  name : String
deriving DecidableEq, Repr

/-- Result of `generateCollectionSchema`. -/
structure CollectionSchema where
  atContext : String
  atType : String
  name : String
  description : String
  url : String
  creator : CreatorSchema
  isPartOf : WebSiteSchema
  image : List String
  associatedMedia : List ImageObjectSchema
deriving DecidableEq, Repr

/-- `generateCollectionSchema(collectionName, collectionDescription,
imageUrls, collectionUrl)`: `image` is `imageUrls.slice(0, 5)` and
`associatedMedia` maps each URL with its index to an image object labelled
`Photo ${index + 1}`. -/
def generateCollectionSchema (collectionName collectionDescription : String)
    (imageUrls : List String) (collectionUrl : String) : CollectionSchema :=
  { atContext := "https://schema.org/"
    atType := "ImageGallery"
    name := collectionName
    description := collectionDescription
    url := collectionUrl
    creator := { atType := "Person", name := "Adrian Villanueva", url := "https://avm.photography" }
    isPartOf := { atType := "WebSite", name := "Adrian Villanueva Photography", url := "https://avm.photography" }
    image := imageUrls.take 5
    associatedMedia := imageUrls.mapIdx (fun index url =>
      { atType := "ImageObject", url := url, name := "Photo " ++ toString (index + 1) }) }

/-- Concrete sample record: already-prefixed aperture, bare shutter speed,
already-suffixed focal length. -/
def affixSample : ImageMetadata :=
  { emptyMetadata with aperture := some "f/2.8", shutter_speed := some "125", focal_length_35mm := some "35mm" }

/-- Concrete sample record: make and model present. -/
def cameraSample : ImageMetadata :=
  { emptyMetadata with camera_make := some "Canon", camera_model := some "EOS R5" }

/-- Concrete sample of seven image URLs. -/
def urlsSample : List String :=
  ["u1", "u2", "u3", "u4", "u5", "u6", "u7"]

/-! Projection lemmas: each statement leaves `metadata` untouched, and each
statement writes at most its own key of `parts`. -/

theorem stmtCamera_metadata (s : FmtState) : (stmtCamera s).metadata = s.metadata := by
  unfold stmtCamera; (repeat' split) <;> rfl

theorem stmtLens_metadata (s : FmtState) : (stmtLens s).metadata = s.metadata := by
  unfold stmtLens; (repeat' split) <;> rfl

theorem stmtIso_metadata (s : FmtState) : (stmtIso s).metadata = s.metadata := by
  unfold stmtIso; (repeat' split) <;> rfl

theorem stmtAperture_metadata (s : FmtState) : (stmtAperture s).metadata = s.metadata := by
  unfold stmtAperture; (repeat' split) <;> rfl

theorem stmtShutter_metadata (s : FmtState) : (stmtShutter s).metadata = s.metadata := by
  unfold stmtShutter; (repeat' split) <;> rfl

theorem stmtFocal_metadata (s : FmtState) : (stmtFocal s).metadata = s.metadata := by
  unfold stmtFocal; (repeat' split) <;> rfl

theorem stmtDate_metadata (s : FmtState) : (stmtDate s).metadata = s.metadata := by
  unfold stmtDate; (repeat' split) <;> rfl

theorem stmtCamera_parts_iso (s : FmtState) : (stmtCamera s).parts.iso = s.parts.iso := by
  unfold stmtCamera; (repeat' split) <;> rfl

theorem stmtLens_parts_iso (s : FmtState) : (stmtLens s).parts.iso = s.parts.iso := by
  unfold stmtLens; (repeat' split) <;> rfl

theorem stmtAperture_parts_iso (s : FmtState) : (stmtAperture s).parts.iso = s.parts.iso := by
  unfold stmtAperture; (repeat' split) <;> rfl

theorem stmtShutter_parts_iso (s : FmtState) : (stmtShutter s).parts.iso = s.parts.iso := by
  unfold stmtShutter; (repeat' split) <;> rfl

theorem stmtFocal_parts_iso (s : FmtState) : (stmtFocal s).parts.iso = s.parts.iso := by
  unfold stmtFocal; (repeat' split) <;> rfl

theorem stmtDate_parts_iso (s : FmtState) : (stmtDate s).parts.iso = s.parts.iso := by
  unfold stmtDate; (repeat' split) <;> rfl

theorem stmtCamera_parts_aperture (s : FmtState) : (stmtCamera s).parts.aperture = s.parts.aperture := by
  unfold stmtCamera; (repeat' split) <;> rfl

theorem stmtLens_parts_aperture (s : FmtState) : (stmtLens s).parts.aperture = s.parts.aperture := by
  unfold stmtLens; (repeat' split) <;> rfl

theorem stmtIso_parts_aperture (s : FmtState) : (stmtIso s).parts.aperture = s.parts.aperture := by
  unfold stmtIso; (repeat' split) <;> rfl

theorem stmtShutter_parts_aperture (s : FmtState) : (stmtShutter s).parts.aperture = s.parts.aperture := by
  unfold stmtShutter; (repeat' split) <;> rfl

theorem stmtFocal_parts_aperture (s : FmtState) : (stmtFocal s).parts.aperture = s.parts.aperture := by
  unfold stmtFocal; (repeat' split) <;> rfl

theorem stmtDate_parts_aperture (s : FmtState) : (stmtDate s).parts.aperture = s.parts.aperture := by
  unfold stmtDate; (repeat' split) <;> rfl

theorem stmtCamera_parts_shutter (s : FmtState) : (stmtCamera s).parts.shutter = s.parts.shutter := by
  unfold stmtCamera; (repeat' split) <;> rfl

theorem stmtLens_parts_shutter (s : FmtState) : (stmtLens s).parts.shutter = s.parts.shutter := by
  unfold stmtLens; (repeat' split) <;> rfl

theorem stmtIso_parts_shutter (s : FmtState) : (stmtIso s).parts.shutter = s.parts.shutter := by
  unfold stmtIso; (repeat' split) <;> rfl

theorem stmtAperture_parts_shutter (s : FmtState) : (stmtAperture s).parts.shutter = s.parts.shutter := by
  unfold stmtAperture; (repeat' split) <;> rfl

theorem stmtFocal_parts_shutter (s : FmtState) : (stmtFocal s).parts.shutter = s.parts.shutter := by
  unfold stmtFocal; (repeat' split) <;> rfl

theorem stmtDate_parts_shutter (s : FmtState) : (stmtDate s).parts.shutter = s.parts.shutter := by
  unfold stmtDate; (repeat' split) <;> rfl

theorem stmtCamera_parts_focal_length (s : FmtState) : (stmtCamera s).parts.focal_length = s.parts.focal_length := by
  unfold stmtCamera; (repeat' split) <;> rfl

theorem stmtLens_parts_focal_length (s : FmtState) : (stmtLens s).parts.focal_length = s.parts.focal_length := by
  unfold stmtLens; (repeat' split) <;> rfl

theorem stmtIso_parts_focal_length (s : FmtState) : (stmtIso s).parts.focal_length = s.parts.focal_length := by
  unfold stmtIso; (repeat' split) <;> rfl

theorem stmtAperture_parts_focal_length (s : FmtState) : (stmtAperture s).parts.focal_length = s.parts.focal_length := by
  unfold stmtAperture; (repeat' split) <;> rfl

theorem stmtShutter_parts_focal_length (s : FmtState) : (stmtShutter s).parts.focal_length = s.parts.focal_length := by
  unfold stmtShutter; (repeat' split) <;> rfl

theorem stmtDate_parts_focal_length (s : FmtState) : (stmtDate s).parts.focal_length = s.parts.focal_length := by
  unfold stmtDate; (repeat' split) <;> rfl

theorem stmtIso_parts_iso (s : FmtState) :
    (stmtIso s).parts.iso =
      match s.metadata.iso with
      | some v => if truthyIsoVal v then some ("ISO " ++ isoDisplay v) else s.parts.iso
      | none => s.parts.iso := by
  unfold stmtIso; (repeat' split) <;> rfl

theorem stmtAperture_parts_aperture (s : FmtState) :
    (stmtAperture s).parts.aperture =
      match s.metadata.aperture with
      | some v => if v != "" then some (if strStartsWith v "f/" then v else "f/" ++ v)
                  else s.parts.aperture
      | none => s.parts.aperture := by
  unfold stmtAperture; (repeat' split) <;> rfl

theorem stmtShutter_parts_shutter (s : FmtState) :
    (stmtShutter s).parts.shutter =
      match s.metadata.shutter_speed with
      | some v => if v != "" then some (if strStartsWith v "1/" then v else "1/" ++ v)
                  else s.parts.shutter
      | none => s.parts.shutter := by
  unfold stmtShutter; (repeat' split) <;> rfl

theorem stmtFocal_parts_focal (s : FmtState) :
    (stmtFocal s).parts.focal_length =
      match s.metadata.focal_length_35mm with
      | some v => if v != "" then some (if strEndsWith v "mm" then v else v ++ "mm")
                  else s.parts.focal_length
      | none => s.parts.focal_length := by
  unfold stmtFocal; (repeat' split) <;> rfl

/-! Per-key characterisation of `formatExposureData`. -/

theorem formatExposureData_iso (m : ImageMetadata) :
    (formatExposureData m).iso =
      match m.iso with
      | some v => if truthyIsoVal v then some ("ISO " ++ isoDisplay v) else none
      | none => none := by
  simp only [formatExposureData, formatRun, stmtDate_parts_iso, stmtFocal_parts_iso,
    stmtShutter_parts_iso, stmtAperture_parts_iso, stmtIso_parts_iso,
    stmtLens_parts_iso, stmtCamera_parts_iso, stmtLens_metadata, stmtCamera_metadata,
    emptyParts]

theorem formatExposureData_aperture (m : ImageMetadata) :
    (formatExposureData m).aperture =
      match m.aperture with
      | some v => if v != "" then some (if strStartsWith v "f/" then v else "f/" ++ v) else none
      | none => none := by
  simp only [formatExposureData, formatRun, stmtDate_parts_aperture, stmtFocal_parts_aperture,
    stmtShutter_parts_aperture, stmtAperture_parts_aperture, stmtIso_parts_aperture,
    stmtLens_parts_aperture, stmtCamera_parts_aperture, stmtIso_metadata, stmtLens_metadata,
    stmtCamera_metadata, emptyParts]

theorem formatExposureData_shutter (m : ImageMetadata) :
    (formatExposureData m).shutter =
      match m.shutter_speed with
      | some v => if v != "" then some (if strStartsWith v "1/" then v else "1/" ++ v) else none
      | none => none := by
  simp only [formatExposureData, formatRun, stmtDate_parts_shutter, stmtFocal_parts_shutter,
    stmtShutter_parts_shutter, stmtAperture_parts_shutter, stmtIso_parts_shutter,
    stmtLens_parts_shutter, stmtCamera_parts_shutter, stmtAperture_metadata, stmtIso_metadata,
    stmtLens_metadata, stmtCamera_metadata, emptyParts]

theorem formatExposureData_focal (m : ImageMetadata) :
    (formatExposureData m).focal_length =
      match m.focal_length_35mm with
      | some v => if v != "" then some (if strEndsWith v "mm" then v else v ++ "mm") else none
      | none => none := by
  simp only [formatExposureData, formatRun, stmtDate_parts_focal_length, stmtFocal_parts_focal,
    stmtShutter_parts_focal_length, stmtAperture_parts_focal_length, stmtIso_parts_focal_length,
    stmtLens_parts_focal_length, stmtCamera_parts_focal_length, stmtShutter_metadata,
    stmtAperture_metadata, stmtIso_metadata, stmtLens_metadata, stmtCamera_metadata, emptyParts]

/-- Every statement of the body leaves the input record untouched. -/
theorem formatRun_metadata (m : ImageMetadata) : (formatRun m).metadata = m := by
  simp only [formatRun, stmtDate_metadata, stmtFocal_metadata, stmtShutter_metadata,
    stmtAperture_metadata, stmtIso_metadata, stmtLens_metadata, stmtCamera_metadata]

/-! Claim theorems. -/

/-- Claim C1: for an identifier already present in the cache,
`loadImageMetadata` returns the cached metadata and issues zero network
requests; and for an uncached identifier, a successful first call followed
by a second call for the same identifier performs exactly one network
request in total. -/
theorem loadImageMetadata_cache_short_circuits
    (cache : Cache) (imageStem baseUrl : String) (net : FetchOutcome) :
    (∀ m, cache.lookup imageStem = some m →
      loadImageMetadata cache imageStem baseUrl net =
        Except.ok { result := some m, cache := cache, requests := [] }) ∧
    (∀ m r₁ r₂ (net₂ : FetchOutcome), cache.lookup imageStem = none →
      loadImageMetadata cache imageStem baseUrl (.okJson m) = Except.ok r₁ →
      loadImageMetadata r₁.cache imageStem baseUrl net₂ = Except.ok r₂ →
      r₁.requests.length + r₂.requests.length = 1) := by
  constructor
  · intro m h
    simp [loadImageMetadata, h]
  · intro m r₁ r₂ net₂ h h1 h2
    simp [loadImageMetadata, h, tryFetchBlock] at h1
    subst h1
    simp [loadImageMetadata, List.lookup] at h2
    subst h2
    rfl

/-- Witness for C1 at a concrete cache, identifier and network outcome. -/
theorem loadImageMetadata_cache_short_circuits_witness :
    loadImageMetadata [("R0012128", emptyMetadata)] "R0012128" "/metadata" FetchOutcome.notOk =
      Except.ok { result := some emptyMetadata, cache := [("R0012128", emptyMetadata)], requests := [] } ∧
    ({ result := some emptyMetadata, cache := [("R0012128", emptyMetadata)],
       requests := [requestUrl "/metadata" "R0012128"] } : LoadResult).requests.length +
      ({ result := some emptyMetadata, cache := [("R0012128", emptyMetadata)],
         requests := [] } : LoadResult).requests.length = 1 := by
  have h := loadImageMetadata_cache_short_circuits [("R0012128", emptyMetadata)] "R0012128" "/metadata" FetchOutcome.notOk
  have h0 := loadImageMetadata_cache_short_circuits [] "R0012128" "/metadata" FetchOutcome.notOk
  exact ⟨h.1 emptyMetadata (by decide), h0.2 emptyMetadata _ _ FetchOutcome.notOk rfl rfl rfl⟩

/-- Claim C2: whatever the network outcome (fault, non-ok status, malformed
body, success), `loadImageMetadata` never lets a fault escape: the promise
always resolves with a metadata record or `null`. -/
theorem loadImageMetadata_never_raises
    (cache : Cache) (imageStem baseUrl : String) (net : FetchOutcome) :
    ∃ r : LoadResult, loadImageMetadata cache imageStem baseUrl net = Except.ok r := by
  unfold loadImageMetadata tryFetchBlock
  cases h : cache.lookup imageStem <;> cases net <;> exact ⟨_, rfl⟩

/-- Claim C3: on a cache miss, a non-ok response or a raising fetch/parse
returns `null` with the cache untouched (while still issuing the one
request), and a cache entry is written exactly on a successfully parsed
response. -/
theorem loadImageMetadata_failure_leaves_cache
    (cache : Cache) (imageStem baseUrl : String)
    (h : cache.lookup imageStem = none) :
    (∀ net : FetchOutcome,
      net = FetchOutcome.notOk ∨ net = FetchOutcome.fault ∨ net = FetchOutcome.okBadJson →
      loadImageMetadata cache imageStem baseUrl net =
        Except.ok { result := none, cache := cache, requests := [requestUrl baseUrl imageStem] }) ∧
    (∀ m, loadImageMetadata cache imageStem baseUrl (.okJson m) =
      Except.ok { result := some m, cache := (imageStem, m) :: cache,
                  requests := [requestUrl baseUrl imageStem] }) := by
  constructor
  · rintro net (rfl | rfl | rfl) <;> simp [loadImageMetadata, h, tryFetchBlock]
  · intro m
    simp [loadImageMetadata, h, tryFetchBlock]

/-- Witness for C3 at an empty cache and a 404-style outcome. -/
theorem loadImageMetadata_failure_leaves_cache_witness :
    loadImageMetadata [] "R0012128" "/metadata" FetchOutcome.notOk =
      Except.ok { result := none, cache := [], requests := [requestUrl "/metadata" "R0012128"] } :=
  (loadImageMetadata_failure_leaves_cache [] "R0012128" "/metadata" rfl).1
    FetchOutcome.notOk (Or.inl rfl)

/-- Counterexample to claim C4 as stated: the record `{iso: 0}` has `iso`
present, yet the output has no `iso` key, because the guard
`if (metadata.iso)` is falsy for the number `0`. -/
theorem formatExposureData_iso_zero_counterexample :
    ({ emptyMetadata with iso := some (IsoValue.single 0) } : ImageMetadata).iso.isSome = true ∧
    (formatExposureData { emptyMetadata with iso := some (IsoValue.single 0) }).iso = none := by
  decide

/-- Claim C4 (amended): for every record whose `iso` field is present and
truthy (non-zero when a single number; every sequence), the output renders
the key `iso` as `ISO {value}`, where the value is the first element of a
non-empty sequence, the text `undefined` for the empty sequence, and the
number itself otherwise. -/
theorem formatExposureData_iso_spec (m : ImageMetadata) (v : IsoValue)
    (h : m.iso = some v) (ht : truthyIsoVal v = true) :
    (formatExposureData m).iso = some ("ISO " ++ isoDisplay v) ∧
    (∀ n, v = IsoValue.single n → isoDisplay v = toString n) ∧
    (∀ n ns, v = IsoValue.seq (n :: ns) → isoDisplay v = toString n) ∧
    (v = IsoValue.seq [] → isoDisplay v = "undefined") := by
  refine ⟨?_, ?_, ?_, ?_⟩
  · rw [formatExposureData_iso, h]
    simp [ht]
  · rintro n rfl; rfl
  · rintro n ns rfl; rfl
  · rintro rfl; rfl

/-- Witness for C4 on the spec's bracketed-capture example `{iso: [100, 200, 400]}`. -/
theorem formatExposureData_iso_spec_witness :
    (formatExposureData { emptyMetadata with iso := some (IsoValue.seq [100, 200, 400]) }).iso =
      some "ISO 100" := by
  rw [(formatExposureData_iso_spec
    { emptyMetadata with iso := some (IsoValue.seq [100, 200, 400]) }
    (IsoValue.seq [100, 200, 400]) rfl (by decide)).1]
  decide

/-- Claim C5: `formatExposureData` on the spec's canonical record produces
exactly the expected mapping. -/
theorem formatExposureData_canonical_example :
    formatExposureData
      { camera_make := some "Canon", camera_model := some "EOS R5", lens := none
        iso := some (.single 3200), aperture := some "2.8", shutter_speed := some "125"
        focal_length_35mm := some "35", date_taken := some "2024:01:15 05:43:33" } =
    { camera := some "Canon EOS R5", lens := none, iso := some "ISO 3200"
      aperture := some "f/2.8", shutter := some "1/125", focal_length := some "35mm"
      date := some "2024-01-15" } := by
  decide

/-- Counterexample to claim C6 as stated: the record `{aperture: ""}` has
`aperture` present, yet the output has no `aperture` key (rather than the
claimed prefixed rendering `f/`), because the guard `if (metadata.aperture)`
is falsy for the empty string. -/
theorem formatExposureData_empty_affix_counterexample :
    (formatExposureData { emptyMetadata with aperture := some "" }).aperture = none ∧
    (formatExposureData { emptyMetadata with aperture := some "" }).aperture ≠ some "f/" := by
  decide

/-- Claim C6 (amended): for every record with a non-empty `aperture`,
`shutter_speed` or `focal_length_35mm` present, the corresponding output is
rendered as-is when the affix (`f/`, `1/`, `mm`) is already there and is
affixed otherwise — never affixed twice. -/
theorem formatExposureData_affixes (m : ImageMetadata) :
    (∀ v, m.aperture = some v → v ≠ "" →
      (formatExposureData m).aperture = some (if strStartsWith v "f/" then v else "f/" ++ v)) ∧
    (∀ v, m.shutter_speed = some v → v ≠ "" →
      (formatExposureData m).shutter = some (if strStartsWith v "1/" then v else "1/" ++ v)) ∧
    (∀ v, m.focal_length_35mm = some v → v ≠ "" →
      (formatExposureData m).focal_length = some (if strEndsWith v "mm" then v else v ++ "mm")) := by
  refine ⟨?_, ?_, ?_⟩ <;> intro v h hv
  · rw [formatExposureData_aperture, h]
    simp [bne_iff_ne.mpr hv]
  · rw [formatExposureData_shutter, h]
    simp [bne_iff_ne.mpr hv]
  · rw [formatExposureData_focal, h]
    simp [bne_iff_ne.mpr hv]

/-- Witness for C6: an already-prefixed aperture stays as-is, a bare
shutter and focal length get affixed. -/
theorem formatExposureData_affixes_witness :
    (formatExposureData affixSample).aperture = some "f/2.8" ∧
    (formatExposureData affixSample).shutter = some "1/125" ∧
    (formatExposureData affixSample).focal_length = some "35mm" := by
  have h := formatExposureData_affixes affixSample
  refine ⟨?_, ?_, ?_⟩
  · rw [h.1 "f/2.8" rfl (by decide)]; decide
  · rw [h.2.1 "125" rfl (by decide)]; decide
  · rw [h.2.2 "35mm" rfl (by decide)]; decide

/-- Counterexample to claim C7 as stated: a record with `camera_model`
present but empty produces no `workExample` block, because the spread
`...(metadata.camera_model && {...})` contributes nothing for a falsy
(empty) string. -/
theorem generateImageSchema_empty_model_counterexample :
    ({ emptyMetadata with camera_model := some "" } : ImageMetadata).camera_model.isSome = true ∧
    (generateImageSchema "img" "title" { emptyMetadata with camera_model := some "" } none).workExample =
      none := by
  decide

/-- Claim C7 (amended): the output of `generateImageSchema` carries a
`workExample` block exactly when `camera_model` is present and non-empty,
and the nested instrument name joins `camera_make` and `camera_model` with
a space, omitting a make that is absent or empty. -/
theorem generateImageSchema_workExample_spec (imageSrc title : String)
    (m : ImageMetadata) (description : Option String) :
    ((generateImageSchema imageSrc title m description).workExample.isSome ↔
      ∃ v, m.camera_model = some v ∧ v ≠ "") ∧
    (∀ v, m.camera_model = some v → v ≠ "" →
      (generateImageSchema imageSrc title m description).workExample =
        some { atType := "PhotographAction"
               instrument := { atType := "Camera"
                               name := filterBooleanJoin [m.camera_make, m.camera_model] } }) ∧
    (∀ v, m.camera_model = some v → v ≠ "" →
      filterBooleanJoin [m.camera_make, m.camera_model] =
        match m.camera_make with
        | some mk => if mk = "" then v else mk ++ " " ++ v
        | none => v) := by
  refine ⟨?_, ?_, ?_⟩
  · cases h : m.camera_model with
    | none => simp [generateImageSchema, h]
    | some v =>
      by_cases hv : v = ""
      · subst hv
        simp [generateImageSchema, h]
      · simp [generateImageSchema, h, bne_iff_ne.mpr hv, hv]
  · intro v h hv
    simp [generateImageSchema, h, bne_iff_ne.mpr hv]
  · intro v h hv
    have hv' : (v != "") = true := bne_iff_ne.mpr hv
    cases hmk : m.camera_make with
    | none => simp [filterBooleanJoin, h, hv', joinSpace]
    | some mk =>
      by_cases hmke : mk = ""
      · subst hmke
        simp [filterBooleanJoin, h, hv', joinSpace]
      · simp [filterBooleanJoin, h, hv', bne_iff_ne.mpr hmke, hmke, joinSpace]

/-- Witness for C7: make and model both present and non-empty. -/
theorem generateImageSchema_workExample_spec_witness :
    (generateImageSchema "img" "title" cameraSample none).workExample =
      some { atType := "PhotographAction"
             instrument := { atType := "Camera", name := "Canon EOS R5" } } := by
  rw [(generateImageSchema_workExample_spec "img" "title" cameraSample none).2.1 "EOS R5" rfl (by decide)]
  decide

/-- Claim C8: the collection schema's `image` field is the first
`min(n, 5)` URLs in input order, and `associatedMedia` has exactly one
entry per input URL, in order, the `i`-th (1-based) carrying the `i`-th
URL and the label `Photo i`. -/
theorem generateCollectionSchema_spec (collectionName collectionDescription collectionUrl : String)
    (imageUrls : List String) :
    (generateCollectionSchema collectionName collectionDescription imageUrls collectionUrl).image =
      imageUrls.take 5 ∧
    (generateCollectionSchema collectionName collectionDescription imageUrls collectionUrl).image.length =
      min imageUrls.length 5 ∧
    (generateCollectionSchema collectionName collectionDescription imageUrls collectionUrl).associatedMedia.length =
      imageUrls.length ∧
    (∀ i (hi : i < imageUrls.length),
      (generateCollectionSchema collectionName collectionDescription imageUrls collectionUrl).associatedMedia[i]? =
        some { atType := "ImageObject", url := imageUrls[i], name := "Photo " ++ toString (i + 1) }) := by
  refine ⟨rfl, ?_, ?_, ?_⟩
  · simp [generateCollectionSchema, List.length_take, Nat.min_comm]
  · simp [generateCollectionSchema, List.length_mapIdx]
  · intro i hi
    have hl : (generateCollectionSchema collectionName collectionDescription imageUrls collectionUrl).associatedMedia.length = imageUrls.length := by
      simp [generateCollectionSchema, List.length_mapIdx]
    rw [List.getElem?_eq_getElem (by rw [hl]; exact hi)]
    simp [generateCollectionSchema, ← List.get_eq_getElem, List.get_mapIdx]

/-- Witness for C8 on the spec's example of seven URLs: `image` keeps the
first five; the seventh media entry carries the seventh URL and the label
`Photo 7`. -/
theorem generateCollectionSchema_spec_witness :
    (generateCollectionSchema "n" "d" urlsSample "u").image = ["u1", "u2", "u3", "u4", "u5"] ∧
    (generateCollectionSchema "n" "d" urlsSample "u").associatedMedia[6]? =
      some { atType := "ImageObject", url := "u7", name := "Photo 7" } := by
  have h := generateCollectionSchema_spec "n" "d" "u" urlsSample
  refine ⟨?_, ?_⟩
  · rw [h.1]; decide
  · rw [h.2.2.2 6 (by decide)]; decide

/-- Counterexample to claim C9 as stated: with the explicitly given empty
description, the output's description is the title, not the given
description, because `description || title` falls back on the falsy empty
string. -/
theorem generateImageSchema_description_counterexample :
    (generateImageSchema "img" "Title" emptyMetadata (some "")).description = "Title" ∧
    "Title" ≠ "" := by
  decide

/-- Claim C9 (amended): `generateImageSchema` always emits the identity
fields — type `Photograph`, name equal to the title, the image URL, the
capture date equal to `date_taken` (absent when it is absent), the fixed
photographer block — and the description equals the given description,
defaulting to the title when the description is absent or empty. -/
theorem generateImageSchema_identity_fields (imageSrc title : String)
    (m : ImageMetadata) (description : Option String) :
    (generateImageSchema imageSrc title m description).atType = "Photograph" ∧
    (generateImageSchema imageSrc title m description).name = title ∧
    (generateImageSchema imageSrc title m description).image = imageSrc ∧
    (generateImageSchema imageSrc title m description).photographDate = m.date_taken ∧
    (generateImageSchema imageSrc title m description).photographer =
      { atType := "Person", name := "Adrian Villanueva" } ∧
    ((description = none ∨ description = some "") →
      (generateImageSchema imageSrc title m description).description = title) ∧
    (∀ d, description = some d → d ≠ "" →
      (generateImageSchema imageSrc title m description).description = d) := by
  refine ⟨rfl, rfl, rfl, rfl, rfl, ?_, ?_⟩
  · rintro (rfl | rfl) <;> simp [generateImageSchema, jsOrElse]
  · intro d h hd
    simp [generateImageSchema, jsOrElse, h, bne_iff_ne.mpr hd]

/-- Witness for C9 at a record without `date_taken` and a non-empty
description. -/
theorem generateImageSchema_identity_fields_witness :
    (generateImageSchema "img" "title" emptyMetadata (some "desc")).atType = "Photograph" ∧
    (generateImageSchema "img" "title" emptyMetadata (some "desc")).photographDate = none ∧
    (generateImageSchema "img" "title" emptyMetadata (some "desc")).description = "desc" := by
  have h := generateImageSchema_identity_fields "img" "title" emptyMetadata (some "desc")
  exact ⟨h.1, h.2.2.2.1, h.2.2.2.2.2.2 "desc" rfl (by decide)⟩

/-- Claim C10: running the formatter statement sequence never writes to the
input record, and the formatter and schema builders are deterministic:
equal inputs give equal outputs. -/
theorem metadataService_read_only_deterministic :
    (∀ m : ImageMetadata, (formatRun m).metadata = m) ∧
    (∀ m₁ m₂ : ImageMetadata, m₁ = m₂ → formatExposureData m₁ = formatExposureData m₂) ∧
    (∀ (m₁ m₂ : ImageMetadata) (imageSrc title : String) (description : Option String),
      m₁ = m₂ → generateImageSchema imageSrc title m₁ description =
        generateImageSchema imageSrc title m₂ description) := by
  refine ⟨formatRun_metadata, ?_, ?_⟩
  · intro m₁ m₂ h
    rw [h]
  · intro m₁ m₂ imageSrc title description h
    rw [h]

/-- Witness for C10 at a concrete record. -/
theorem metadataService_read_only_deterministic_witness :
    (formatRun cameraSample).metadata = cameraSample ∧
    formatExposureData cameraSample = formatExposureData cameraSample := by
  have h := metadataService_read_only_deterministic
  exact ⟨h.1 cameraSample, h.2.1 cameraSample cameraSample rfl⟩
